import Mathlib

/-!
Verification of the browser-controller HTTP service (src/main.go).

The program exposes one HTTP endpoint, `POST /open`, whose handler
`handleOpenURL` validates the request and delegates to `updateFirefoxURL`,
a three-way OS dispatch that shells out to external commands.  We embed
both functions shallowly: external command execution becomes an explicit
environment (`ExecEnv`), and the handler is parametrised by the navigation
strategy it calls.  Each model function also returns the trace of the
external calls it performed, so that ordering and never-invoked claims are
statable.
-/

namespace BrowserController

/-- A parsed JSON value, as read from a request body. -/
inductive Json where
  | null : Json
  | bool : Bool → Json
  | num : Int → Json
  | str : String → Json
  | arr : List Json → Json
  | obj : List (String × Json) → Json

/-- `Response` from src/main.go: the API response, serialised with exactly
the two JSON fields `success` and `message`. -/
structure Response where
  Success : Bool
  Message : String
deriving DecidableEq, Repr

/-- The observable HTTP response the handler writes: status code (set via
`WriteHeader`), the `Content-Type` header, and the JSON body. -/
structure HttpResponse where
  status : Nat
  contentType : String
  body : Response
deriving DecidableEq, Repr

/-- An incoming HTTP request: its method string, and its body, already run
through the JSON parser — `none` when the body is not syntactically valid
JSON, `some v` when it parses to the value `v`. -/
structure Request where
  method : String
  body : Option Json

/-- Go `encoding/json` matches an object key to the struct field tagged
`json:"url"` exactly or case-insensitively; for the three-letter name
`url` that is an ASCII case-fold comparison. -/
def keyMatchesURL (k : String) : Bool :=
  match k.data with
  | [a, b, c] =>
    (a == 'u' || a == 'U') && (b == 'r' || b == 'R') && (c == 'l' || c == 'L')
  | _ => false

/-- Models Go `encoding/json` decoding of an object's fields into
`URLRequest` (one field, tag `json:"url"`): fields are processed in
order; a key matching `url` whose value is a string overwrites the
accumulator, a matching key with value JSON null is ignored (Go leaves
the field unchanged when unmarshalling null into a string field), a
matching key with any other non-string value is a decode error, and any
other key is ignored. -/
def decodeFields : List (String × Json) → String → Except Unit String
  | [], acc => .ok acc
  | (k, v) :: rest, acc =>
    if keyMatchesURL k then
      match v with
      | .str s => decodeFields rest s
      | .null => decodeFields rest acc
      | _ => .error ()
    else
      decodeFields rest acc

/-- Models `json.NewDecoder(r.Body).Decode(&req)` for `URLRequest`:
a syntactically invalid body is an error; JSON `null` leaves the zero
value (`URL == ""`); an object is decoded field by field; any other
top-level value cannot be unmarshalled into a struct and is an error. -/
def decodeURLRequest : Option Json → Except Unit String
  | none => .error ()
  | some .null => .ok ""
  | some (.obj fields) => decodeFields fields ""
  | some _ => .error ()

/-- The environment of external commands: `run` models `cmd.Run()`
(`none` = exit success, `some e` = failure with error text `e`), and
`output` models `cmd.Output()`'s stdout (the Windows branch discards the
error with `output, _ := checkCmd.Output()`). -/
structure ExecEnv where
  run : List String → Option String
  output : List String → String

/-- `checkCmd` of the linux branch: `exec.Command("pgrep", "firefox")`. -/
def checkCmdLinux : List String := ["pgrep", "firefox"]

/-- The launch command of the linux branch: `exec.Command("firefox", url)`. -/
def launchCmdLinux (url : String) : List String := ["firefox", url]

/-- `focusCmd`: `exec.Command("xdotool", "search", "--onlyvisible", "--class", "Firefox", "windowactivate")`. -/
def focusCmd : List String :=
  ["xdotool", "search", "--onlyvisible", "--class", "Firefox", "windowactivate"]

/-- `selectCmd`: `exec.Command("xdotool", "key", "ctrl+l")`. -/
def selectCmd : List String := ["xdotool", "key", "ctrl+l"]

/-- `typeCmd`: `exec.Command("xdotool", "type", "--clearmodifiers", url)`. -/
def typeCmd (url : String) : List String := ["xdotool", "type", "--clearmodifiers", url]

/-- `enterCmd`: `exec.Command("xdotool", "key", "Return")`. -/
def enterCmd : List String := ["xdotool", "key", "Return"]

/-- The literal part of the darwin `scriptContent` before the `%s` verb. -/
def scriptPre : String :=
  "\n\t\ttell application \"Firefox\"\n\t\t\tactivate\n\t\t\ttell application \"System Events\"\n\t\t\t\ttell process \"Firefox\"\n\t\t\t\t\tkeystroke \"l\" using command down\n\t\t\t\t\tdelay 0.1\n\t\t\t\t\tkeystroke \"a\" using command down\n\t\t\t\t\tdelay 0.1\n\t\t\t\t\tkeystroke \""

/-- The literal part of the darwin `scriptContent` after the `%s` verb. -/
def scriptPost : String :=
  "\"\n\t\t\t\t\tdelay 0.1\n\t\t\t\t\tkeystroke return\n\t\t\t\tend tell\n\t\t\tend tell\n\t\tend tell"

/-- `scriptContent := fmt.Sprintf(`...%s...`, url)` of the darwin branch. -/
def scriptContent (url : String) : String := scriptPre ++ url ++ scriptPost

/-- The darwin command: `exec.Command("osascript", "-e", scriptContent)`. -/
def osascriptCmd (url : String) : List String := ["osascript", "-e", scriptContent url]

/-- `checkCmd` of the windows branch:
`exec.Command("tasklist", "/FI", "IMAGENAME eq firefox.exe", "/NH")`. -/
def checkCmdWindows : List String := ["tasklist", "/FI", "IMAGENAME eq firefox.exe", "/NH"]

/-- The launch command of the windows branch:
`exec.Command("cmd", "/C", "start", "firefox.exe", url)`. -/
def launchCmdWindows (url : String) : List String := ["cmd", "/C", "start", "firefox.exe", url]

/-- The literal part of the windows `psScript` before the first `%s` verb. -/
def psScriptPre : String :=
  "\n\t\t\tAdd-Type -AssemblyName System.Windows.Forms\n\t\t\t# Focus Firefox window\n\t\t\t$firefox = Get-Process firefox | Where-Object \x7b$_.MainWindowHandle -ne 0\x7d | Select-Object -First 1\n\t\t\tif ($firefox) \x7b\n\t\t\t\t[void][System.Reflection.Assembly]::LoadWithPartialName(\x27Microsoft.VisualBasic\x27)\n\t\t\t\t$hwnd = $firefox.MainWindowHandle\n\t\t\t\t[Microsoft.VisualBasic.Interaction]::AppActivate($hwnd)\n\t\t\t\tStart-Sleep -Milliseconds 100\n\t\t\t\t# Select address bar and enter URL\n\t\t\t\t[System.Windows.Forms.SendKeys]::SendWait(\"^l\")\n\t\t\t\tStart-Sleep -Milliseconds 100\n\t\t\t\t[System.Windows.Forms.SendKeys]::SendWait(\"^a\")\n\t\t\t\tStart-Sleep -Milliseconds 100\n\t\t\t\t[System.Windows.Forms.SendKeys]::SendWait(\""

/-- The literal part of the windows `psScript` between the two `%s` verbs. -/
def psScriptMid : String :=
  "\")\n\t\t\t\tStart-Sleep -Milliseconds 100\n\t\t\t\t[System.Windows.Forms.SendKeys]::SendWait(\"\x7bENTER\x7d\")\n\t\t\t\x7d else \x7b\n\t\t\t\tStart-Process \"firefox.exe\" -ArgumentList \""

/-- The literal part of the windows `psScript` after the second `%s` verb. -/
def psScriptPost : String := "\"\n\t\t\t\x7d"

/-- `psScript := fmt.Sprintf(`...%s...%s...`, url, url)` of the windows branch. -/
def psScript (url : String) : String :=
  psScriptPre ++ url ++ psScriptMid ++ url ++ psScriptPost

/-- The windows automation command: `exec.Command("powershell", "-Command", psScript)`. -/
def powershellCmd (url : String) : List String := ["powershell", "-Command", psScript url]

/-- Whether `pat` is an initial segment of `s` (on character lists). -/
def charsStartsWith : List Char → List Char → Bool
  | _, [] => true
  | [], _ :: _ => false
  | c :: cs, d :: ds => c == d && charsStartsWith cs ds

/-- Whether `pat` occurs contiguously inside `s` (on character lists). -/
def charsContains : List Char → List Char → Bool
  | [], pat => charsStartsWith [] pat
  | s@(_ :: cs), pat => charsStartsWith s pat || charsContains cs pat

/-- Models Go `strings.Contains s sub`: does `sub` occur as a substring
of `s`? -/
def goStringsContains (s sub : String) : Bool := charsContains s.data sub.data

/-- Shallow embedding of `updateFirefoxURL` (src/main.go lines 26-118),
parametrised by the command environment and by `runtime.GOOS`.  The first
component is the returned `error` (`none` = nil); the second is the trace
of external commands actually executed, in order. -/
def updateFirefoxURL (env : ExecEnv) (goos : String) (url : String) :
    Option String × List (List String) :=
  if goos = "linux" then
    match env.run checkCmdLinux with
    | some _ =>
      -- Firefox is not running, start it with the URL
      (env.run (launchCmdLinux url), [checkCmdLinux, launchCmdLinux url])
    | none =>
      -- Firefox is running, use xdotool to focus Firefox and simulate keystrokes
      match env.run focusCmd with
      | some e =>
        (some ("failed to focus Firefox window: " ++ e), [checkCmdLinux, focusCmd])
      | none =>
        match env.run selectCmd with
        | some e =>
          (some ("failed to select address bar: " ++ e), [checkCmdLinux, focusCmd, selectCmd])
        | none =>
          match env.run (typeCmd url) with
          | some e =>
            (some ("failed to type URL: " ++ e),
             [checkCmdLinux, focusCmd, selectCmd, typeCmd url])
          | none =>
            (env.run enterCmd,
             [checkCmdLinux, focusCmd, selectCmd, typeCmd url, enterCmd])
  else if goos = "darwin" then
    (env.run (osascriptCmd url), [osascriptCmd url])
  else if goos = "windows" then
    if !goStringsContains (env.output checkCmdWindows) "firefox.exe" then
      -- Firefox is not running, start it with the URL
      (env.run (launchCmdWindows url), [checkCmdWindows, launchCmdWindows url])
    else
      -- Firefox is running, use PowerShell to focus and change URL
      (env.run (powershellCmd url), [checkCmdWindows, powershellCmd url])
  else
    (some ("unsupported operating system: " ++ goos), [])

/-- Shallow embedding of `handleOpenURL` (src/main.go lines 120-171),
parametrised by the navigation strategy `nav` it delegates to
(`nav url = none` models `updateFirefoxURL(url) == nil`).  The second
component is the list of URLs `nav` was invoked on, so "the navigation
strategy is never invoked" is `= []`. -/
def handleOpenURL (nav : String → Option String) (r : Request) :
    HttpResponse × List String :=
  if r.method ≠ "POST" then
    (⟨405, "application/json", ⟨false, "Only POST method is allowed"⟩⟩, [])
  else
    match decodeURLRequest r.body with
    | .error _ =>
      (⟨400, "application/json", ⟨false, "Invalid JSON payload"⟩⟩, [])
    | .ok url =>
      if url = "" then
        (⟨400, "application/json", ⟨false, "URL cannot be empty"⟩⟩, [])
      else
        match nav url with
        | some e =>
          (⟨500, "application/json", ⟨false, "Failed to change URL: " ++ e⟩⟩, [url])
        | none =>
          (⟨200, "application/json",
            ⟨true, "Successfully changed Firefox tab to " ++ url⟩⟩, [url])

example :
    handleOpenURL (fun _ => none)
      ⟨"POST", some (.obj [("url", .str "https://example.com")])⟩ =
    (⟨200, "application/json",
      ⟨true, "Successfully changed Firefox tab to https://example.com"⟩⟩,
     ["https://example.com"]) := by rfl

example :
    handleOpenURL (fun _ => none) ⟨"POST", some (.obj [])⟩ =
    (⟨400, "application/json", ⟨false, "URL cannot be empty"⟩⟩, []) := by rfl

example :
    handleOpenURL (fun _ => none) ⟨"GET", some (.obj [])⟩ =
    (⟨405, "application/json", ⟨false, "Only POST method is allowed"⟩⟩, []) := by rfl

example :
    handleOpenURL (fun _ => none) ⟨"POST", some (.obj [("url", .num 5)])⟩ =
    (⟨400, "application/json", ⟨false, "Invalid JSON payload"⟩⟩, []) := by rfl

example :
    (updateFirefoxURL ⟨fun _ => none, fun _ => ""⟩ "plan9" "x").fst =
      some "unsupported operating system: plan9" := by rfl

/-- C1: for every POST request whose body decodes to a non-empty `url` and
for which the navigation strategy returns no error, the handler responds
with status 200, success = true, and a message containing the literal
submitted URL. -/
theorem handleOpenURL_success (nav : String → Option String) (r : Request)
    (url : String) (hm : r.method = "POST")
    (hd : decodeURLRequest r.body = .ok url) (hne : url ≠ "")
    (hnav : nav url = none) :
    (handleOpenURL nav r).fst.status = 200 ∧
    (handleOpenURL nav r).fst.body.Success = true ∧
    ∃ pre post, (handleOpenURL nav r).fst.body.Message = pre ++ url ++ post := by
  have h : handleOpenURL nav r =
      (⟨200, "application/json",
        ⟨true, "Successfully changed Firefox tab to " ++ url⟩⟩, [url]) := by
    simp [handleOpenURL, hm, hd, hne, hnav]
  rw [h]
  exact ⟨rfl, rfl, "Successfully changed Firefox tab to ", "", by simp⟩

/-- C1 witness. -/
theorem handleOpenURL_success_witness :
    (handleOpenURL (fun _ => none)
      ⟨"POST", some (.obj [("url", .str "https://example.com")])⟩).fst.status = 200 ∧
    (handleOpenURL (fun _ => none)
      ⟨"POST", some (.obj [("url", .str "https://example.com")])⟩).fst.body.Success = true ∧
    ∃ pre post,
      (handleOpenURL (fun _ => none)
        ⟨"POST", some (.obj [("url", .str "https://example.com")])⟩).fst.body.Message =
        pre ++ "https://example.com" ++ post :=
  handleOpenURL_success (fun _ => none)
    ⟨"POST", some (.obj [("url", .str "https://example.com")])⟩
    "https://example.com" rfl rfl (by decide) rfl

/-- C3: a POST request whose body decodes successfully with an empty `url`
field (absent or explicitly empty, e.g. the empty-object body) gets status 400,
success = false, message exactly "URL cannot be empty", and the navigation
strategy is never invoked (empty call trace). -/
theorem handleOpenURL_empty_url (nav : String → Option String) (r : Request)
    (hm : r.method = "POST") (hd : decodeURLRequest r.body = .ok "") :
    handleOpenURL nav r =
      (⟨400, "application/json", ⟨false, "URL cannot be empty"⟩⟩, []) := by
  simp [handleOpenURL, hm, hd]

/-- C3 witness: the empty JSON object body. -/
theorem handleOpenURL_empty_url_witness :
    handleOpenURL (fun _ => some "never called") ⟨"POST", some (.obj [])⟩ =
      (⟨400, "application/json", ⟨false, "URL cannot be empty"⟩⟩, []) :=
  handleOpenURL_empty_url (fun _ => some "never called") ⟨"POST", some (.obj [])⟩ rfl rfl

/-- C4: any request whose method is not POST gets status 405,
success = false, message exactly "Only POST method is allowed", and
neither the body parse nor the navigation strategy matters: the result is
the same for every body and every strategy, with an empty call trace. -/
theorem handleOpenURL_wrong_method (nav : String → Option String) (r : Request)
    (hm : r.method ≠ "POST") :
    handleOpenURL nav r =
      (⟨405, "application/json", ⟨false, "Only POST method is allowed"⟩⟩, []) := by
  simp [handleOpenURL, hm]

/-- C4 witness: a GET request with a body that would otherwise succeed. -/
theorem handleOpenURL_wrong_method_witness :
    handleOpenURL (fun _ => none)
      ⟨"GET", some (.obj [("url", .str "https://example.com")])⟩ =
      (⟨405, "application/json", ⟨false, "Only POST method is allowed"⟩⟩, []) :=
  handleOpenURL_wrong_method (fun _ => none)
    ⟨"GET", some (.obj [("url", .str "https://example.com")])⟩ (by decide)

/-- C5: a POST request whose body fails to decode (syntactically invalid
JSON, or a value that cannot be unmarshalled into the `url` struct) gets
status 400, success = false, message exactly "Invalid JSON payload", and
the navigation strategy is never invoked (empty call trace). -/
theorem handleOpenURL_invalid_json (nav : String → Option String) (r : Request)
    (hm : r.method = "POST") (hd : decodeURLRequest r.body = .error ()) :
    handleOpenURL nav r =
      (⟨400, "application/json", ⟨false, "Invalid JSON payload"⟩⟩, []) := by
  simp [handleOpenURL, hm, hd]

/-- C5 witness: a syntactically invalid body. -/
theorem handleOpenURL_invalid_json_witness :
    handleOpenURL (fun _ => some "never called") ⟨"POST", none⟩ =
      (⟨400, "application/json", ⟨false, "Invalid JSON payload"⟩⟩, []) :=
  handleOpenURL_invalid_json (fun _ => some "never called") ⟨"POST", none⟩ rfl rfl

/-- C9 counterexample: for the POST body whose `url` field is JSON null,
Go's decoder ignores the null (string field left at its zero value ""),
so the handler answers 400 "URL cannot be empty" — not
"Invalid JSON payload" as the original claim asserts for every non-string
value. -/
theorem handleOpenURL_null_url_cex :
    handleOpenURL (fun _ => none) ⟨"POST", some (.obj [("url", .null)])⟩ =
      (⟨400, "application/json", ⟨false, "URL cannot be empty"⟩⟩, []) ∧
    (handleOpenURL (fun _ => none)
      ⟨"POST", some (.obj [("url", .null)])⟩).fst.body.Message ≠
      "Invalid JSON payload" :=
  ⟨rfl, by decide⟩

/-- C9 (amended): a POST request whose body is a JSON object whose `url`
field holds a non-string, non-null value decodes with an error, so the
handler answers 400 with message "Invalid JSON payload" (not
"URL cannot be empty").  (A null `url` is ignored by the decoder and
yields 400 "URL cannot be empty" instead.) -/
theorem handleOpenURL_nonstring_url (nav : String → Option String) (r : Request)
    (v : Json) (hm : r.method = "POST") (hb : r.body = some (.obj [("url", v)]))
    (hv : ∀ s, v ≠ .str s) (hnull : v ≠ .null) :
    handleOpenURL nav r =
      (⟨400, "application/json", ⟨false, "Invalid JSON payload"⟩⟩, []) := by
  have hd : decodeURLRequest r.body = .error () := by
    rw [hb]
    cases v with
    | str s => exact absurd rfl (hv s)
    | null => exact absurd rfl hnull
    | bool b => rfl
    | num n => rfl
    | arr xs => rfl
    | obj fs => rfl
  simp [handleOpenURL, hm, hd]

/-- C9 witness: an object body whose `url` field is the number 5. -/
theorem handleOpenURL_nonstring_url_witness :
    handleOpenURL (fun _ => none) ⟨"POST", some (.obj [("url", .num 5)])⟩ =
      (⟨400, "application/json", ⟨false, "Invalid JSON payload"⟩⟩, []) :=
  handleOpenURL_nonstring_url (fun _ => none)
    ⟨"POST", some (.obj [("url", .num 5)])⟩ (.num 5) rfl rfl
    (fun _ h => Json.noConfusion h) (fun h => Json.noConfusion h)

/-- C2: when the navigation strategy fails, the handler answers 500 with
success = false and a message embedding the underlying failure text; in
particular with the real `updateFirefoxURL` strategy on an unsupported
operating system the message is exactly
"Failed to change URL: unsupported operating system: <os>". -/
theorem handleOpenURL_nav_failure :
    (∀ (nav : String → Option String) (r : Request) (url e : String),
      r.method = "POST" → decodeURLRequest r.body = .ok url → url ≠ "" →
      nav url = some e →
      (handleOpenURL nav r).fst =
        ⟨500, "application/json", ⟨false, "Failed to change URL: " ++ e⟩⟩) ∧
    (∀ (env : ExecEnv) (goos : String) (r : Request) (url : String),
      goos ≠ "linux" → goos ≠ "darwin" → goos ≠ "windows" →
      r.method = "POST" → decodeURLRequest r.body = .ok url → url ≠ "" →
      (handleOpenURL (fun u => (updateFirefoxURL env goos u).fst) r).fst =
        ⟨500, "application/json",
          ⟨false, "Failed to change URL: unsupported operating system: " ++ goos⟩⟩) := by
  constructor
  · intro nav r url e hm hd hne hnav
    simp [handleOpenURL, hm, hd, hne, hnav]
  · intro env goos r url h1 h2 h3 hm hd hne
    have hnav : (updateFirefoxURL env goos url).fst =
        some ("unsupported operating system: " ++ goos) := by
      simp [updateFirefoxURL, h1, h2, h3]
    simp [handleOpenURL, hm, hd, hne, hnav]
    rw [← String.append_assoc]
    rfl

/-- C2 witness: a failing strategy, and the real strategy on "plan9". -/
theorem handleOpenURL_nav_failure_witness :
    (handleOpenURL (fun _ => some "boom")
      ⟨"POST", some (.obj [("url", .str "https://example.com")])⟩).fst =
      ⟨500, "application/json", ⟨false, "Failed to change URL: boom"⟩⟩ ∧
    (handleOpenURL
      (fun u => (updateFirefoxURL ⟨fun _ => none, fun _ => ""⟩ "plan9" u).fst)
      ⟨"POST", some (.obj [("url", .str "https://example.com")])⟩).fst =
      ⟨500, "application/json",
        ⟨false, "Failed to change URL: unsupported operating system: plan9"⟩⟩ :=
  ⟨handleOpenURL_nav_failure.1 (fun _ => some "boom")
      ⟨"POST", some (.obj [("url", .str "https://example.com")])⟩
      "https://example.com" "boom" rfl rfl (by decide) rfl,
   handleOpenURL_nav_failure.2 ⟨fun _ => none, fun _ => ""⟩ "plan9"
      ⟨"POST", some (.obj [("url", .str "https://example.com")])⟩
      "https://example.com" (by decide) (by decide) (by decide) rfl rfl (by decide)⟩

/-- C6: on linux with Firefox running (the process check succeeds), the
four automation commands are attempted in the strict order focus, select
address bar, type, Enter; the first failing command aborts the sequence
with an error wrapping that step's failure, commands after the failing one
are never executed, and no verification happens between steps (the trace
holds exactly the commands up to the failure). -/
theorem updateFirefoxURL_linux_running (env : ExecEnv) (url : String)
    (hrun : env.run checkCmdLinux = none) :
    (∀ e, env.run focusCmd = some e →
      updateFirefoxURL env "linux" url =
        (some ("failed to focus Firefox window: " ++ e),
         [checkCmdLinux, focusCmd])) ∧
    (env.run focusCmd = none → ∀ e, env.run selectCmd = some e →
      updateFirefoxURL env "linux" url =
        (some ("failed to select address bar: " ++ e),
         [checkCmdLinux, focusCmd, selectCmd])) ∧
    (env.run focusCmd = none → env.run selectCmd = none →
      ∀ e, env.run (typeCmd url) = some e →
      updateFirefoxURL env "linux" url =
        (some ("failed to type URL: " ++ e),
         [checkCmdLinux, focusCmd, selectCmd, typeCmd url])) ∧
    (env.run focusCmd = none → env.run selectCmd = none →
      env.run (typeCmd url) = none →
      updateFirefoxURL env "linux" url =
        (env.run enterCmd,
         [checkCmdLinux, focusCmd, selectCmd, typeCmd url, enterCmd])) := by
  refine ⟨fun e hf => ?_, fun hf e hs => ?_, fun hf hs e ht => ?_, fun hf hs ht => ?_⟩ <;>
    simp_all [updateFirefoxURL]

/-- C6 witness: an environment where the select-address-bar step fails. -/
theorem updateFirefoxURL_linux_running_witness :
    updateFirefoxURL ⟨fun c => if c = selectCmd then some "boom" else none, fun _ => ""⟩
        "linux" "https://example.com" =
      (some "failed to select address bar: boom",
       [checkCmdLinux, focusCmd, selectCmd]) :=
  (updateFirefoxURL_linux_running
      ⟨fun c => if c = selectCmd then some "boom" else none, fun _ => ""⟩
      "https://example.com" (by decide)).2.1 (by decide) "boom" (by decide)

/-- C7: on darwin there is no running-process check: for every URL the
function executes exactly one command — the osascript invocation of the
scripted sequence — whose success is the function's result; the script
contains the `activate` step and the fixed `delay 0.1` pauses between
keystrokes. -/
theorem updateFirefoxURL_darwin (env : ExecEnv) (url : String) :
    updateFirefoxURL env "darwin" url =
      (env.run (osascriptCmd url), [osascriptCmd url]) ∧
    (updateFirefoxURL env "darwin" url).snd.length = 1 ∧
    checkCmdLinux ∉ (updateFirefoxURL env "darwin" url).snd ∧
    checkCmdWindows ∉ (updateFirefoxURL env "darwin" url).snd ∧
    (∃ pre post, scriptContent url = pre ++ ("activate" ++ post)) ∧
    (∃ pre post, scriptContent url = pre ++ ("delay 0.1" ++ post)) := by
  refine ⟨rfl, rfl, ?_, ?_, ?_, ?_⟩
  · simp [updateFirefoxURL, osascriptCmd, checkCmdLinux]
  · simp [updateFirefoxURL, osascriptCmd, checkCmdWindows]
  · refine ⟨"\n\t\ttell application \"Firefox\"\n\t\t\t",
      "\n\t\t\ttell application \"System Events\"\n\t\t\t\ttell process \"Firefox\"\n\t\t\t\t\tkeystroke \"l\" using command down\n\t\t\t\t\tdelay 0.1\n\t\t\t\t\tkeystroke \"a\" using command down\n\t\t\t\t\tdelay 0.1\n\t\t\t\t\tkeystroke \"" ++ (url ++ scriptPost), ?_⟩
    rw [scriptContent, String.append_assoc, ← String.append_assoc scriptPre]
    rfl
  · refine ⟨"\n\t\ttell application \"Firefox\"\n\t\t\tactivate\n\t\t\ttell application \"System Events\"\n\t\t\t\ttell process \"Firefox\"\n\t\t\t\t\tkeystroke \"l\" using command down\n\t\t\t\t\t",
      "\n\t\t\t\t\tkeystroke \"a\" using command down\n\t\t\t\t\tdelay 0.1\n\t\t\t\t\tkeystroke \"" ++ (url ++ scriptPost), ?_⟩
    rw [scriptContent, String.append_assoc, ← String.append_assoc scriptPre]
    rfl

/-- C8: on linux and windows, when the running-process check reports that
Firefox is not running, the browser is launched with the URL as a
command-line argument (one command after the check), and the function's
result is exactly the outcome of that process start. -/
theorem updateFirefoxURL_launch_when_not_running :
    (∀ (env : ExecEnv) (url e : String), env.run checkCmdLinux = some e →
      updateFirefoxURL env "linux" url =
        (env.run (launchCmdLinux url), [checkCmdLinux, launchCmdLinux url])) ∧
    (∀ (env : ExecEnv) (url : String),
      goStringsContains (env.output checkCmdWindows) "firefox.exe" = false →
      updateFirefoxURL env "windows" url =
        (env.run (launchCmdWindows url), [checkCmdWindows, launchCmdWindows url])) := by
  constructor
  · intro env url e hrun
    simp [updateFirefoxURL, hrun]
  · intro env url hout
    simp [updateFirefoxURL, hout]

/-- C8 witness: a linux environment where `pgrep firefox` fails, and a
windows environment whose `tasklist` output does not mention firefox.exe. -/
theorem updateFirefoxURL_launch_witness :
    updateFirefoxURL ⟨fun c => if c = checkCmdLinux then some "exit 1" else none, fun _ => ""⟩
        "linux" "https://example.com" =
      ((⟨fun c => if c = checkCmdLinux then some "exit 1" else none, fun _ => ""⟩ :
        ExecEnv).run (launchCmdLinux "https://example.com"),
       [checkCmdLinux, launchCmdLinux "https://example.com"]) ∧
    updateFirefoxURL ⟨fun _ => none, fun _ => "INFO: No tasks are running."⟩
        "windows" "https://example.com" =
      ((⟨fun _ => none, fun _ => "INFO: No tasks are running."⟩ : ExecEnv).run
        (launchCmdWindows "https://example.com"),
       [checkCmdWindows, launchCmdWindows "https://example.com"]) :=
  ⟨updateFirefoxURL_launch_when_not_running.1
      ⟨fun c => if c = checkCmdLinux then some "exit 1" else none, fun _ => ""⟩
      "https://example.com" "exit 1" (by decide),
   updateFirefoxURL_launch_when_not_running.2
      ⟨fun _ => none, fun _ => "INFO: No tasks are running."⟩
      "https://example.com" (by decide)⟩

/-- C10: for every request the handler produces exactly one response (the
model returns a single `HttpResponse` whose body is the two-field
`Response`), its Content-Type is application/json, its status is one of
200, 400, 405, 500, and success = true exactly when the status is 200. -/
theorem handleOpenURL_response_invariant (nav : String → Option String) (r : Request) :
    (handleOpenURL nav r).fst.contentType = "application/json" ∧
    ((handleOpenURL nav r).fst.body.Success = true ↔
      (handleOpenURL nav r).fst.status = 200) ∧
    ((handleOpenURL nav r).fst.status = 200 ∨ (handleOpenURL nav r).fst.status = 400 ∨
     (handleOpenURL nav r).fst.status = 405 ∨ (handleOpenURL nav r).fst.status = 500) := by
  unfold handleOpenURL
  split
  · simp
  · split
    · simp
    · split
      · simp
      · split <;> simp

end BrowserController
